import Mathlib

/-!
Verification of the DataNovaAI core: the content-addressed dataset store
(`src/core/data_manager.py`), the rule-based dataset validator
(`src/core/data_validator.py`), the transaction journal, and the on-chain
data-sharing agreement client (`src/blockchain/smart_contract.py`).

The Python code is shallowly embedded: the storage directory becomes an
explicit association-list file store, cryptographic digests (`hashlib.sha256`,
`hashlib.md5`) and the regex engine (`re` via pandas) are external libraries
and are therefore threaded as function parameters, and fallible operations
return `Option` or `Except String`.
-/

namespace DataNova

/-- First-match lookup in an association list keyed by strings (models a
Python dict read / a file lookup in the storage directory). -/
def lookupA {α : Type} : List (String × α) → String → Option α
  | [], _ => none
  | p :: rest, k => if p.1 = k then some p.2 else lookupA rest k

/-- Overwrite-or-append update of an association list (models a Python dict
write / overwriting a file in the storage directory). -/
def setAssoc {α : Type} : List (String × α) → String → α → List (String × α)
  | [], k, v => [(k, v)]
  | p :: rest, k, v => if p.1 = k then (k, v) :: rest else p :: setAssoc rest k v

theorem lookupA_setAssoc_self {α : Type} (l : List (String × α)) (k : String) (v : α) :
    lookupA (setAssoc l k v) k = some v := by
  induction l with
  | nil => simp [setAssoc, lookupA]
  | cons p rest ih =>
    by_cases h : p.1 = k
    · simp [setAssoc, h, lookupA]
    · simp [setAssoc, h, lookupA, ih]

/-- The `DataType` enumeration of `src/core/models.py` (a `str` Enum). -/
inductive DataType where
  | experimental
  | observational
  | computational
  | survey
deriving DecidableEq, Repr

/-- The `DatasetMetadata` pydantic model of `src/core/models.py`.
`creation_date` (a `datetime`) is carried as its ISO string; `price_tokens`
(a Python `float`) is carried as a rational. -/
structure DatasetMetadata where
  title : String
  description : String
  data_type : DataType
  keywords : List String
  authors : List String
  creation_date : String
  license : String
  file_hash : String
  size_bytes : Int
  price_tokens : Rat
deriving DecidableEq, Repr

/-- Contents of a persisted `{id}.meta` file: either a JSON document that
parses into a `DatasetMetadata`, or junk that `json.load` /
`DatasetMetadata(**d)` rejects. -/
inductive MetaBlob where
  | parsed (m : DatasetMetadata)
  | junk (raw : String)
deriving DecidableEq, Repr

/-- The storage directory of a `DataManager`: the `{id}.data` files (raw
bytes, modelled as lists of byte values) and the `{id}.meta` files. -/
structure FileStore where
  dataFiles : List (String × List Nat)
  metaFiles : List (String × MetaBlob)
deriving DecidableEq, Repr

/-- `DataManager._generate_dataset_id`: `dataset_{timestamp}_{md5(path)[:8]}`.
`datetime.now().strftime("%Y%m%d%H%M%S")` is passed in as `timestamp`;
`hashlib.md5(...).hexdigest()` is the external function `md5hex`. -/
def generateDatasetId (md5hex : String → String) (timestamp filePath : String) : String :=
  "dataset_" ++ timestamp ++ "_" ++ (md5hex filePath).take 8

/-- `DataManager.store_dataset`: generates the id, computes the SHA-256 of the
source file's bytes `B` (the streamed 4096-byte-chunk digest of
`_calculate_file_hash` equals the digest of the whole stream), sets
`metadata.file_hash` to it, copies the bytes to `{id}.data` and dumps the
metadata to `{id}.meta`. `sha256hex` is the external digest function. -/
def storeDataset (sha256hex : List Nat → String) (md5hex : String → String)
    (s : FileStore) (B : List Nat) (filePath timestamp : String)
    (M : DatasetMetadata) : String × FileStore :=
  let datasetId := generateDatasetId md5hex timestamp filePath
  let fileHash := sha256hex B
  let M2 := { M with file_hash := fileHash }
  (datasetId,
   { dataFiles := setAssoc s.dataFiles datasetId B,
     metaFiles := setAssoc s.metaFiles datasetId (MetaBlob.parsed M2) })

/-- `DataManager.retrieve_dataset`: reads `{id}.data` then `{id}.meta`;
any missing file or unparseable metadata raises, modelled as `none`. -/
def retrieveDataset (s : FileStore) (datasetId : String) :
    Option (List Nat × DatasetMetadata) :=
  match lookupA s.dataFiles datasetId with
  | none => none
  | some b =>
    match lookupA s.metaFiles datasetId with
    | none => none
    | some (MetaBlob.junk _) => none
    | some (MetaBlob.parsed m) => some (b, m)

/-- `DataManager.verify_dataset`: retrieves, recomputes the SHA-256 of the
retrieved bytes and compares it with the stored `file_hash`; every exception
is caught and turned into `False`. -/
def verifyDataset (sha256hex : List Nat → String) (s : FileStore)
    (datasetId : String) : Bool :=
  match retrieveDataset s datasetId with
  | none => false
  | some (b, m) => decide (sha256hex b = m.file_hash)

/-- The effect of one `verify_dataset` call on the store: the returned boolean
together with the store afterwards.  The Python body only opens files for
reading, so the store is returned unchanged. -/
def verifyDatasetRun (sha256hex : List Nat → String) (s : FileStore)
    (datasetId : String) : Bool × FileStore :=
  (verifyDataset sha256hex s datasetId, s)

theorem retrieveDataset_storeDataset (sha256hex : List Nat → String)
    (md5hex : String → String) (s : FileStore) (B : List Nat)
    (filePath timestamp : String) (M : DatasetMetadata) :
    retrieveDataset (storeDataset sha256hex md5hex s B filePath timestamp M).2
      (storeDataset sha256hex md5hex s B filePath timestamp M).1 =
      some (B, { M with file_hash := sha256hex B }) := by
  unfold storeDataset retrieveDataset
  simp [lookupA_setAssoc_self]

/-- C1: after `store(B, M)` returns an identifier `d`, `verify_dataset d` is
true, and retrieval of `d` yields exactly the stored bytes `B` together with a
metadata record whose `file_hash` equals the SHA-256 digest of `B`, so the
recomputed hash of the retrieved bytes equals the stored `file_hash`. -/
theorem store_verify_roundtrip (sha256hex : List Nat → String)
    (md5hex : String → String) (s : FileStore) (B : List Nat)
    (filePath timestamp : String) (M : DatasetMetadata) :
    verifyDataset sha256hex (storeDataset sha256hex md5hex s B filePath timestamp M).2
      (storeDataset sha256hex md5hex s B filePath timestamp M).1 = true ∧
    retrieveDataset (storeDataset sha256hex md5hex s B filePath timestamp M).2
      (storeDataset sha256hex md5hex s B filePath timestamp M).1 =
      some (B, { M with file_hash := sha256hex B }) ∧
    ({ M with file_hash := sha256hex B } : DatasetMetadata).file_hash = sha256hex B := by
  refine ⟨?_, retrieveDataset_storeDataset .., rfl⟩
  unfold verifyDataset
  rw [retrieveDataset_storeDataset]
  simp

/-- C2: `verify_dataset` returns `false` whenever retrieval fails (missing
data file, missing metadata file, or unparseable metadata) and whenever the
recomputed hash differs from the stored `file_hash`; the call leaves the
store unchanged. -/
theorem verify_never_raises (sha256hex : List Nat → String) (s : FileStore)
    (datasetId : String) :
    (retrieveDataset s datasetId = none → verifyDataset sha256hex s datasetId = false) ∧
    (∀ b m, retrieveDataset s datasetId = some (b, m) →
      sha256hex b ≠ m.file_hash → verifyDataset sha256hex s datasetId = false) ∧
    (verifyDatasetRun sha256hex s datasetId).2 = s := by
  refine ⟨?_, ?_, rfl⟩
  · intro h; unfold verifyDataset; rw [h]
  · intro b m h hne; unfold verifyDataset; rw [h]; simp [hne]

/-- C2 witness: a store whose only metadata file is junk; retrieval of the
corresponding dataset fails, and the theorem yields `verify = false`. -/
theorem verify_never_raises_witness :
    verifyDataset (fun _ => "h") ⟨[("d1", [0])], [("d1", MetaBlob.junk "not-json")]⟩ "d1" = false :=
  (verify_never_raises (fun _ => "h") ⟨[("d1", [0])], [("d1", MetaBlob.junk "not-json")]⟩ "d1").1
    (by decide)

/-- A concrete metadata record used in closed evaluations below. -/
def sampleMeta : DatasetMetadata :=
  { title := "t", description := "d", data_type := DataType.experimental,
    keywords := [], authors := [], creation_date := "2024-01-01T00:00:00",
    license := "MIT", file_hash := "unset", size_bytes := 999, price_tokens := 0 }

/-- C10: the metadata record persisted by `store_dataset` is the supplied one
with exactly the `file_hash` field overwritten (set to the digest of the
stored bytes); every other field, `size_bytes` included, is persisted exactly
as supplied — in particular `size_bytes` is never recomputed from the actual
byte count (concretely: storing 3 bytes under a metadata record declaring
`size_bytes = 999` persists 999). -/
theorem store_metadata_frame (sha256hex : List Nat → String)
    (md5hex : String → String) (s : FileStore) (B : List Nat)
    (filePath timestamp : String) (M : DatasetMetadata) :
    (lookupA (storeDataset sha256hex md5hex s B filePath timestamp M).2.metaFiles
        (storeDataset sha256hex md5hex s B filePath timestamp M).1 =
      some (MetaBlob.parsed { M with file_hash := sha256hex B })) ∧
    (∀ m, lookupA (storeDataset sha256hex md5hex s B filePath timestamp M).2.metaFiles
        (storeDataset sha256hex md5hex s B filePath timestamp M).1 =
          some (MetaBlob.parsed m) →
      m.title = M.title ∧ m.description = M.description ∧
      m.data_type = M.data_type ∧ m.keywords = M.keywords ∧
      m.authors = M.authors ∧ m.creation_date = M.creation_date ∧
      m.license = M.license ∧ m.size_bytes = M.size_bytes ∧
      m.price_tokens = M.price_tokens ∧ m.file_hash = sha256hex B) ∧
    (lookupA (storeDataset (fun _ => "h3") (fun p => p) ⟨[], []⟩ [1, 2, 3] "f.csv"
        "20240101120000" sampleMeta).2.metaFiles
        (storeDataset (fun _ => "h3") (fun p => p) ⟨[], []⟩ [1, 2, 3] "f.csv"
        "20240101120000" sampleMeta).1 =
      some (MetaBlob.parsed { sampleMeta with file_hash := "h3" }) ∧
      ({ sampleMeta with file_hash := "h3" } : DatasetMetadata).size_bytes = 999 ∧
      ([1, 2, 3] : List Nat).length = 3) := by
  have hmain : lookupA (storeDataset sha256hex md5hex s B filePath timestamp M).2.metaFiles
      (storeDataset sha256hex md5hex s B filePath timestamp M).1 =
      some (MetaBlob.parsed { M with file_hash := sha256hex B }) := by
    unfold storeDataset
    simp [lookupA_setAssoc_self]
  refine ⟨hmain, ?_, ?_⟩
  · intro m hm
    rw [hmain] at hm
    cases hm
    exact ⟨rfl, rfl, rfl, rfl, rfl, rfl, rfl, rfl, rfl, rfl⟩
  · refine ⟨?_, rfl, rfl⟩
    unfold storeDataset
    simp [lookupA_setAssoc_self]

/-- C10 witness: applying the frame theorem at a concrete store call. -/
theorem store_metadata_frame_witness :
    ({ sampleMeta with file_hash := "h3" } : DatasetMetadata).title = "t" ∧
    ({ sampleMeta with file_hash := "h3" } : DatasetMetadata).size_bytes = 999 :=
  ((store_metadata_frame (fun _ => "h3") (fun p => p) ⟨[], []⟩ [1, 2, 3] "f.csv"
      "20240101120000" sampleMeta).2.1 { sampleMeta with file_hash := "h3" }
    (by decide)).imp id (fun h => by
      exact h.2.2.2.2.2.2.1)

/-- A Python value as it occurs in `list_datasets` filters and in
`getattr(metadata, key, None)` results: `None`, strings, ints, floats
(rationals), lists of strings, `datetime` values (carried as their ISO
string but distinct from plain strings, as in Python), and bound
methods/class-level objects as exposed by the pydantic `BaseModel`
attribute surface (carried by attribute name). -/
inductive PyVal where
  | none
  | str (s : String)
  | int (n : Int)
  | rat (q : Rat)
  | strList (l : List String)
  | datetime (d : String)
  | method (name : String)
deriving DecidableEq, Repr

/-- C4: the dataset identifier depends only on the second-granularity
timestamp and the md5 of the source *path*: two distinct `store_dataset`
calls that fall in the same second and name the same source path receive the
same identifier, whatever bytes, metadata, digest functions or prior store
state are involved.  Concretely, storing `[0]` and then `[1]` from
`"data.csv"` at timestamp `"20240101120000"` returns equal identifiers, so
the claimed uniqueness across concurrent (same-second) calls fails. -/
theorem same_second_same_path_identifier_collision :
    (∀ (sha1 sha2 : List Nat → String) (md5hex : String → String)
       (s1 s2 : FileStore) (B1 B2 : List Nat) (filePath timestamp : String)
       (M1 M2 : DatasetMetadata),
       (storeDataset sha1 md5hex s1 B1 filePath timestamp M1).1 =
       (storeDataset sha2 md5hex s2 B2 filePath timestamp M2).1) ∧
    ((storeDataset (fun _ => "h1") (fun p => p) ⟨[], []⟩ [0] "data.csv"
        "20240101120000" sampleMeta).1 =
      (storeDataset (fun _ => "h2") (fun p => p)
        (storeDataset (fun _ => "h1") (fun p => p) ⟨[], []⟩ [0] "data.csv"
          "20240101120000" sampleMeta).2 [1] "data.csv"
        "20240101120000" sampleMeta).1 ∧
      ([0] : List Nat) ≠ [1]) := by
  refine ⟨?_, rfl, by decide⟩
  intro sha1 sha2 md5hex s1 s2 B1 B2 filePath timestamp M1 M2
  rfl

/-- The `Transaction` pydantic model of `src/core/models.py`; `amount` (a
float) is a rational and `timestamp` (a datetime) its ISO string. -/
structure Transaction where
  transaction_id : String
  seller_address : String
  buyer_address : String
  dataset_id : String
  amount : Rat
  timestamp : String
  status : String
deriving DecidableEq, Repr

/-- The contents of the `transactions.json` journal file: absent (never
created), a JSON array of transactions, or empty (zero bytes — the state a
`open(path, "w")` truncation leaves behind, which `json.load` rejects). -/
inductive JournalFile where
  | absent
  | json (ts : List Transaction)
  | empty
deriving DecidableEq, Repr

/-- The read phase of `record_transaction`: an absent journal reads as `[]`;
an empty (truncated) file makes `json.load` raise `JSONDecodeError`. -/
def readTransactions : JournalFile → Except String (List Transaction)
  | JournalFile.absent => Except.ok []
  | JournalFile.json ts => Except.ok ts
  | JournalFile.empty => Except.error "JSONDecodeError: Expecting value"

/-- `DataManager.record_transaction`, run to completion: read the journal,
append the new record, rewrite the file.  Read failures are wrapped and
re-raised, leaving the journal as it was. -/
def recordTransaction (j : JournalFile) (t : Transaction) :
    Except String JournalFile :=
  match readTransactions j with
  | Except.error e => Except.error ("Error recording transaction: " ++ e)
  | Except.ok ts => Except.ok (JournalFile.json (ts ++ [t]))

/-- The journal file at the intermediate execution point of
`record_transaction` just after `open(transaction_path, "w")` has truncated
the file and before `json.dump` has written anything: the code rewrites the
journal in place (no temporary file, no atomic replace), so at this point
the file is empty whatever it held before. -/
def recordTransactionAfterTruncate (j : JournalFile) (_t : Transaction) :
    Except String JournalFile :=
  match readTransactions j with
  | Except.error e => Except.error ("Error recording transaction: " ++ e)
  | Except.ok _ => Except.ok JournalFile.empty

/-- A concrete prior transaction for the journal scenarios. -/
def sampleTx0 : Transaction :=
  { transaction_id := "tx0", seller_address := "s0", buyer_address := "b0",
    dataset_id := "d0", amount := 1, timestamp := "2024-01-01T00:00:00",
    status := "completed" }

/-- A concrete new transaction for the journal scenarios. -/
def sampleTx1 : Transaction :=
  { transaction_id := "tx1", seller_address := "s1", buyer_address := "b1",
    dataset_id := "d1", amount := 2, timestamp := "2024-01-02T00:00:00",
    status := "completed" }

/-- C8: a completed append extends the journal in order (`J ++ [t]`, so reads
return all transactions in append order), but the rewrite happens in place:
at the point where the journal file has been opened for writing and not yet
rewritten, a journal that held `[tx0]` is empty — it no longer equals the
prior journal, and reading it fails — so an append interrupted there has
corrupted the previously recorded entries, contradicting the claimed
temporary-location/atomic-replace behaviour. -/
theorem journal_append_not_atomic :
    recordTransaction (JournalFile.json [sampleTx0]) sampleTx1 =
      Except.ok (JournalFile.json [sampleTx0, sampleTx1]) ∧
    recordTransactionAfterTruncate (JournalFile.json [sampleTx0]) sampleTx1 =
      Except.ok JournalFile.empty ∧
    JournalFile.empty ≠ JournalFile.json [sampleTx0] ∧
    readTransactions JournalFile.empty =
      Except.error "JSONDecodeError: Expecting value" := by
  refine ⟨rfl, rfl, ?_, rfl⟩
  decide

/-- A JSON scalar as it occurs in the serialized agreement payload. -/
inductive JVal where
  | jstr (s : String)
  | jint (n : Int)
  | jrat (q : Rat)
deriving DecidableEq, Repr

/-- The agreement payload built by
`SmartContract.create_data_sharing_agreement`; `price` (a float) is a
rational, `access_duration` an integer. -/
structure AgreementData where
  owner : String
  user : String
  dataset_id : String
  access_duration : Int
  price : Rat
  status : String
deriving DecidableEq, Repr

/-- The `agreement_data` dict literal of `create_data_sharing_agreement`:
the caller-supplied owner, user, dataset id, duration and price together
with `status: "pending"`. -/
def createAgreementData (owner user datasetId : String)
    (accessDuration : Int) (price : Rat) : AgreementData :=
  { owner := owner, user := user, dataset_id := datasetId,
    access_duration := accessDuration, price := price, status := "pending" }

/-- `json.dumps(agreement_data).encode()` as a structured JSON object (the
byte-level JSON text and the base58 transport encoding are external and
invert each other, so the payload is modelled as the JSON object itself). -/
def serializeAgreement (a : AgreementData) : List (String × JVal) :=
  [("owner", JVal.jstr a.owner), ("user", JVal.jstr a.user),
   ("dataset_id", JVal.jstr a.dataset_id),
   ("access_duration", JVal.jint a.access_duration),
   ("price", JVal.jrat a.price), ("status", JVal.jstr a.status)]

/-- The serialized payload carried by the initialize instruction that
`create_data_sharing_agreement` submits. -/
def createInstructionData (owner user datasetId : String)
    (accessDuration : Int) (price : Rat) : List (String × JVal) :=
  serializeAgreement (createAgreementData owner user datasetId accessDuration price)

/-- `SmartContract.verify_agreement`: fetches the agreement account from the
ledger (`get_account_info`), raising "Agreement not found" when it is
absent, and returns the decoded JSON payload.  The external ledger is the
function `ledger` from addresses to stored account data. -/
def verifyAgreement (ledger : String → Option (List (String × JVal)))
    (agreementPubkey : String) : Except String (List (String × JVal)) :=
  match ledger agreementPubkey with
  | Option.none => Except.error "Error verifying agreement: Agreement not found"
  | Option.some jd => Except.ok jd

/-- C9: the agreement payload built at creation has status `"pending"` and
carries exactly the caller-supplied owner, counterparty, dataset id, access
duration and price; hence on any ledger whose confirmed account for the new
agreement holds the create instruction's payload, `verify_agreement` returns
a snapshot whose `status` field is `"pending"`. -/
theorem create_agreement_status_pending
    (owner user datasetId : String) (accessDuration : Int) (price : Rat) :
    (createAgreementData owner user datasetId accessDuration price).status =
      "pending" ∧
    lookupA (createInstructionData owner user datasetId accessDuration price)
      "status" = some (JVal.jstr "pending") ∧
    lookupA (createInstructionData owner user datasetId accessDuration price)
      "owner" = some (JVal.jstr owner) ∧
    lookupA (createInstructionData owner user datasetId accessDuration price)
      "user" = some (JVal.jstr user) ∧
    lookupA (createInstructionData owner user datasetId accessDuration price)
      "dataset_id" = some (JVal.jstr datasetId) ∧
    lookupA (createInstructionData owner user datasetId accessDuration price)
      "access_duration" = some (JVal.jint accessDuration) ∧
    lookupA (createInstructionData owner user datasetId accessDuration price)
      "price" = some (JVal.jrat price) ∧
    (∀ (ledger : String → Option (List (String × JVal))) (addr : String),
      ledger addr =
        some (createInstructionData owner user datasetId accessDuration price) →
      verifyAgreement ledger addr =
        Except.ok (createInstructionData owner user datasetId accessDuration price) ∧
      ∀ jd, verifyAgreement ledger addr = Except.ok jd →
        lookupA jd "status" = some (JVal.jstr "pending")) := by
  refine ⟨rfl, rfl, rfl, rfl, rfl, rfl, rfl, ?_⟩
  intro ledger addr h
  have hv : verifyAgreement ledger addr =
      Except.ok (createInstructionData owner user datasetId accessDuration price) := by
    unfold verifyAgreement
    rw [h]
  refine ⟨hv, ?_⟩
  intro jd hjd
  rw [hv] at hjd
  cases hjd
  rfl

/-- C9 witness: the theorem applied to a one-account ledger holding a freshly
created agreement's payload. -/
theorem create_agreement_status_pending_witness :
    verifyAgreement
      (fun addr => if addr = "agr1"
        then some (createInstructionData "ow" "us" "ds" 30 5)
        else Option.none) "agr1" =
      Except.ok (createInstructionData "ow" "us" "ds" 30 5) :=
  (((create_agreement_status_pending "ow" "us" "ds" 30 5).2.2.2.2.2.2.2
    (fun addr => if addr = "agr1"
      then some (createInstructionData "ow" "us" "ds" 30 5)
      else Option.none) "agr1" (by simp)).1)

/-- One cell of a pandas column: an integer, a string, or a missing value
(`None`/`NaN`). -/
inductive CellVal where
  | int (n : Int)
  | str (s : String)
  | null
deriving DecidableEq, Repr

/-- The pandas dtype of a column built from the cells above: any string makes
it `object`, otherwise missing values promote integers to `float64`, an empty
column defaults to `object`, and a nonempty all-integer column is `int64`. -/
def dtypeOf (col : List CellVal) : String :=
  if col.any (fun c => match c with | CellVal.str _ => true | _ => false) then "object"
  else if col.any (fun c => match c with | CellVal.null => true | _ => false) then "float64"
  else if col.isEmpty then "object"
  else "int64"

/-- `column.dtype == parameters["expected_type"]`: a dtype compares equal to
its string name and unequal to any non-string value. -/
def dtypeEq (d : String) (p : PyVal) : Bool :=
  match p with
  | PyVal.str s => decide (d = s)
  | _ => false

/-- The integer cells of a column, in order. -/
def intCells (col : List CellVal) : List Int :=
  col.filterMap (fun c => match c with | CellVal.int n => some n | _ => none)

/-- The string cells of a column, in order. -/
def strCells (col : List CellVal) : List String :=
  col.filterMap (fun c => match c with | CellVal.str s => some s | _ => none)

/-- The result of `column.min()` / `column.max()`: an integer, a string
(pandas orders string columns lexicographically), or `NaN` when no non-null
cell exists (missing values are skipped). -/
inductive MinOut where
  | ival (n : Int)
  | sval (s : String)
  | nan
deriving DecidableEq, Repr

/-- Lexicographic minimum of two strings. -/
def strMin (a b : String) : String := if a ≤ b then a else b

/-- Lexicographic maximum of two strings. -/
def strMax (a b : String) : String := if a ≤ b then b else a

/-- `column.min()`: skips missing values, yields `NaN` on an all-null or
empty column, and raises a `TypeError` on a column mixing strings and
integers (unorderable). -/
def colMin (col : List CellVal) : Except String MinOut :=
  match intCells col, strCells col with
  | [], [] => Except.ok MinOut.nan
  | n :: ns, [] => Except.ok (MinOut.ival (ns.foldl min n))
  | [], s :: ss => Except.ok (MinOut.sval (ss.foldl strMin s))
  | _ :: _, _ :: _ => Except.error "TypeError: unorderable types str and int"

/-- `column.max()`, symmetric to `colMin`. -/
def colMax (col : List CellVal) : Except String MinOut :=
  match intCells col, strCells col with
  | [], [] => Except.ok MinOut.nan
  | n :: ns, [] => Except.ok (MinOut.ival (ns.foldl max n))
  | [], s :: ss => Except.ok (MinOut.sval (ss.foldl strMax s))
  | _ :: _, _ :: _ => Except.error "TypeError: unorderable types str and int"

/-- `column.min() >= min_val`: `NaN` compares `False`, numbers compare with
numbers (ints and floats interchangeably), strings with strings, and any
cross-type comparison raises a `TypeError`. -/
def cmpGe (m : MinOut) (p : PyVal) : Except String Bool :=
  match m, p with
  | MinOut.nan, _ => Except.ok false
  | MinOut.ival n, PyVal.int v => Except.ok (decide (v ≤ n))
  | MinOut.ival n, PyVal.rat q => Except.ok (decide (q ≤ (n : Rat)))
  | MinOut.ival _, _ => Except.error "TypeError: not supported between int and non-number"
  | MinOut.sval s, PyVal.str v => Except.ok (decide (v ≤ s))
  | MinOut.sval _, _ => Except.error "TypeError: not supported between str and non-str"

/-- `column.max() <= max_val`, symmetric to `cmpGe`. -/
def cmpLe (m : MinOut) (p : PyVal) : Except String Bool :=
  match m, p with
  | MinOut.nan, _ => Except.ok false
  | MinOut.ival n, PyVal.int v => Except.ok (decide (n ≤ v))
  | MinOut.ival n, PyVal.rat q => Except.ok (decide ((n : Rat) ≤ q))
  | MinOut.ival _, _ => Except.error "TypeError: not supported between int and non-number"
  | MinOut.sval s, PyVal.str v => Except.ok (decide (s ≤ v))
  | MinOut.sval _, _ => Except.error "TypeError: not supported between str and non-str"

/-- The stringified form of a column extremum stored in the details dict. -/
def minOutStr : MinOut → String
  | MinOut.ival n => toString n
  | MinOut.sval s => s
  | MinOut.nan => "nan"

/-- The stringified form of a cell stored in the details dict. -/
def cellStr : CellVal → String
  | CellVal.int n => toString n
  | CellVal.str s => s
  | CellVal.null => "nan"

/-- `if min_val is not None: is_valid &= column.min() >= min_val`. -/
def checkMin (col : List CellVal) (minv : PyVal) : Except String Bool :=
  if minv = PyVal.none then Except.ok true
  else match colMin col with
    | Except.error e => Except.error e
    | Except.ok m => cmpGe m minv

/-- `if max_val is not None: is_valid &= column.max() <= max_val`. -/
def checkMax (col : List CellVal) (maxv : PyVal) : Except String Bool :=
  if maxv = PyVal.none then Except.ok true
  else match colMax col with
    | Except.error e => Except.error e
    | Except.ok m => cmpLe m maxv

/-- The `range_check` branch of `_apply_rule`: both bounds are read with
`parameters.get` (absent behaves as `None`), each given bound is checked
independently and ANDed into the validity, then `column.min()`/`column.max()`
are recomputed for the details dict (which can itself raise on a mixed
column). -/
def rangeCheck (col : List CellVal) (params : List (String × PyVal)) :
    Except String (Bool × List (String × String)) :=
  let minv := (lookupA params "min").getD PyVal.none
  let maxv := (lookupA params "max").getD PyVal.none
  match checkMin col minv with
  | Except.error e => Except.error e
  | Except.ok v1 =>
    match checkMax col maxv with
    | Except.error e => Except.error e
    | Except.ok v2 =>
      match colMin col, colMax col with
      | Except.error e, _ => Except.error e
      | _, Except.error e => Except.error e
      | Except.ok dmin, Except.ok dmax =>
        Except.ok (v1 && v2, [("min", minOutStr dmin), ("max", minOutStr dmax)])

/-- `column.duplicated().sum()`: the number of cells equal to some earlier
cell (missing values count as equal to each other, as in pandas). -/
def dupCountGo (seen : List CellVal) : List CellVal → Nat
  | [] => 0
  | c :: rest => (if c ∈ seen then 1 else 0) + dupCountGo (c :: seen) rest

/-- Duplicate count of a column. -/
def dupCount (col : List CellVal) : Nat := dupCountGo [] col

/-- `column.unique()`: the distinct cells in first-occurrence order. -/
def uniqueCellsGo (seen : List CellVal) : List CellVal → List CellVal
  | [] => []
  | c :: rest =>
    if c ∈ seen then uniqueCellsGo seen rest
    else c :: uniqueCellsGo (c :: seen) rest

/-- The distinct cells of a column. -/
def uniqueCells (col : List CellVal) : List CellVal := uniqueCellsGo [] col

/-- The `pattern_check` branch: `parameters["pattern"]` raises `KeyError`
when absent; `column.str` raises an `AttributeError` on a non-string column;
a non-string pattern makes the regex engine raise; otherwise every value is
matched against the pattern (`reMatch` is the external `re` engine via
`Series.str.match`) and the count of non-matching values is recorded. -/
def patternCheck (reMatch : String → String → Bool) (col : List CellVal)
    (params : List (String × PyVal)) :
    Except String (Bool × List (String × String)) :=
  match lookupA params "pattern" with
  | Option.none => Except.error "KeyError: 'pattern'"
  | Option.some pat =>
    if col.all (fun c => match c with | CellVal.str _ => true | _ => false) then
      match pat with
      | PyVal.str p =>
        let nonMatching := (strCells col).filter (fun s => ! reMatch p s)
        Except.ok (nonMatching.isEmpty, [("non_matching", toString nonMatching.length)])
      | _ => Except.error "TypeError: first argument must be string or compiled pattern"
    else Except.error "AttributeError: Can only use .str accessor with string values!"

/-- The `missing_check` branch: missing count against
`parameters.get("threshold", 0)`; a non-numeric threshold raises. -/
def missingCheck (col : List CellVal) (params : List (String × PyVal)) :
    Except String (Bool × List (String × String)) :=
  let missing := (col.filter (fun c => match c with | CellVal.null => true | _ => false)).length
  match (lookupA params "threshold").getD (PyVal.int 0) with
  | PyVal.int t => Except.ok (decide ((missing : Int) ≤ t),
      [("missing_count", toString missing)])
  | PyVal.rat q => Except.ok (decide ((missing : Rat) ≤ q),
      [("missing_count", toString missing)])
  | _ => Except.error "TypeError: not supported between int and non-number"

/-- The `categorical_check` branch: `set(parameters["allowed_values"])`
(`KeyError` when absent, `TypeError` when not iterable, a string iterates
into its characters), then the distinct cells outside the allowed set — any
non-string cell, missing values included, is outside a set of strings. -/
def categoricalCheck (col : List CellVal) (params : List (String × PyVal)) :
    Except String (Bool × List (String × String)) :=
  match lookupA params "allowed_values" with
  | Option.none => Except.error "KeyError: 'allowed_values'"
  | Option.some (PyVal.strList allowed) =>
    let invalid := (uniqueCells col).filter (fun c =>
      match c with
      | CellVal.str s => ! allowed.contains s
      | _ => true)
    Except.ok (invalid.isEmpty, [("invalid_values", toString (invalid.map cellStr))])
  | Option.some (PyVal.str chars) =>
    let allowed := chars.toList.map (fun ch => String.mk [ch])
    let invalid := (uniqueCells col).filter (fun c =>
      match c with
      | CellVal.str s => ! allowed.contains s
      | _ => true)
    Except.ok (invalid.isEmpty, [("invalid_values", toString (invalid.map cellStr))])
  | Option.some _ => Except.error "TypeError: object is not iterable"

/-- The dispatch of `DatasetValidator._apply_rule` before exception handling:
each recognized rule kind evaluates to a validity flag and a details dict, or
raises; an unrecognized rule kind leaves the initial
`{is_valid: True, details: {}}` untouched. -/
def evalRule (reMatch : String → String → Bool) (col : List CellVal)
    (ruleType : String) (params : List (String × PyVal)) :
    Except String (Bool × List (String × String)) :=
  if ruleType = "type_check" then
    match lookupA params "expected_type" with
    | Option.none => Except.error "KeyError: 'expected_type'"
    | Option.some et =>
      Except.ok (dtypeEq (dtypeOf col) et, [("actual_type", dtypeOf col)])
  else if ruleType = "range_check" then rangeCheck col params
  else if ruleType = "unique_check" then
    Except.ok (decide (dupCount col = 0), [("duplicate_count", toString (dupCount col))])
  else if ruleType = "pattern_check" then patternCheck reMatch col params
  else if ruleType = "missing_check" then missingCheck col params
  else if ruleType = "categorical_check" then categoricalCheck col params
  else Except.ok (true, [])

/-- One rule outcome as built by `_apply_rule`. -/
structure RuleResult where
  rule_type : String
  is_valid : Bool
  details : List (String × String)
deriving DecidableEq, Repr

/-- `DatasetValidator._apply_rule`: the evaluation above with its enclosing
`try/except` — any exception becomes `is_valid = False` with the error
message embedded in the details. -/
def applyRule (reMatch : String → String → Bool) (col : List CellVal)
    (ruleType : String) (params : List (String × PyVal)) : RuleResult :=
  match evalRule reMatch col ruleType params with
  | Except.ok bd => { rule_type := ruleType, is_valid := bd.1, details := bd.2 }
  | Except.error e =>
    { rule_type := ruleType, is_valid := false, details := [("error", e)] }

/-- One registered rule: `{"type": ..., "parameters": ...}`. -/
structure VRule where
  ruleType : String
  parameters : List (String × PyVal)
deriving DecidableEq, Repr

/-- The per-column outcome built by `_validate_column`. -/
structure ColumnChecked where
  is_valid : Bool
  rule_results : List RuleResult
deriving DecidableEq, Repr

/-- `DatasetValidator._validate_column`: applies every rule in registration
order; the column is valid iff every rule result is. -/
def validateColumn (reMatch : String → String → Bool) (col : List CellVal)
    (rules : List VRule) : ColumnChecked :=
  let rs := rules.map (fun r => applyRule reMatch col r.ruleType r.parameters)
  { is_valid := rs.all (fun r => r.is_valid), rule_results := rs }

/-- A `column_results` entry: either the `{"error": "Column not found in
dataset"}` marker or a checked column. -/
inductive ColumnEntry where
  | missingCol (err : String)
  | checked (c : ColumnChecked)
deriving DecidableEq, Repr

/-- The report built by `validate_dataset`. -/
structure ValidationReport where
  timestamp : String
  total_rows : Nat
  column_results : List (String × ColumnEntry)
  overall_validity : Bool
deriving DecidableEq, Repr

/-- A `DatasetValidator` instance: its registered rules (a dict in insertion
order) and its validation history. -/
structure DatasetValidator where
  validation_rules : List (String × List VRule)
  validation_history : List ValidationReport
deriving Repr

/-- `DatasetValidator.add_rule`: appends the rule to the column's list,
creating the entry if absent; the parameters are stored untouched and never
inspected at registration time. -/
def addRule (v : DatasetValidator) (column ruleType : String)
    (params : List (String × PyVal)) : DatasetValidator :=
  match lookupA v.validation_rules column with
  | Option.none =>
    { v with validation_rules :=
        v.validation_rules ++ [(column, [{ ruleType := ruleType, parameters := params }])] }
  | Option.some rs =>
    let rs2 := rs ++ [{ ruleType := ruleType, parameters := params }]
    { v with validation_rules := setAssoc v.validation_rules column rs2 }

/-- The loop of `validate_dataset` over the registered columns: a configured
column absent from the dataset records the missing-column error and forces
the overall validity to `False`; a present column contributes its checked
result, ANDed into the overall validity. -/
def validateGo (reMatch : String → String → Bool)
    (dataset : List (String × List CellVal)) :
    List (String × List VRule) → List (String × ColumnEntry) × Bool
  | [] => ([], true)
  | (column, rules) :: rest =>
    let r := validateGo reMatch dataset rest
    match lookupA dataset column with
    | Option.none =>
      ((column, ColumnEntry.missingCol "Column not found in dataset") :: r.1, false)
    | Option.some cells =>
      let cc := validateColumn reMatch cells rules
      ((column, ColumnEntry.checked cc) :: r.1, cc.is_valid && r.2)

/-- `len(dataset)` for a column-oriented DataFrame: its row count. -/
def datasetRowCount (dataset : List (String × List CellVal)) : Nat :=
  match dataset with
  | [] => 0
  | c :: _ => c.2.length

/-- `DatasetValidator.validate_dataset`: builds the report and appends it to
the validation history. -/
def validateDataset (reMatch : String → String → Bool) (timestamp : String)
    (v : DatasetValidator) (dataset : List (String × List CellVal)) :
    ValidationReport × DatasetValidator :=
  let r := validateGo reMatch dataset v.validation_rules
  let report : ValidationReport :=
    { timestamp := timestamp, total_rows := datasetRowCount dataset,
      column_results := r.1, overall_validity := r.2 }
  (report, { v with validation_history := v.validation_history ++ [report] })

theorem validateGo_spec (reMatch : String → String → Bool)
    (dataset : List (String × List CellVal)) (rules : List (String × List VRule)) :
    (validateGo reMatch dataset rules).1 =
      rules.map (fun p => (p.1,
        match lookupA dataset p.1 with
        | Option.none => ColumnEntry.missingCol "Column not found in dataset"
        | Option.some cells => ColumnEntry.checked (validateColumn reMatch cells p.2))) ∧
    (validateGo reMatch dataset rules).2 =
      rules.all (fun p =>
        match lookupA dataset p.1 with
        | Option.none => false
        | Option.some cells => (validateColumn reMatch cells p.2).is_valid) := by
  induction rules with
  | nil => exact ⟨rfl, rfl⟩
  | cons p rest ih =>
    obtain ⟨column, rs⟩ := p
    cases h : lookupA dataset column with
    | none => simp [validateGo, h, ih.1, ih.2]
    | some cells => simp [validateGo, h, ih.1, ih.2]

/-- C5: for every registered rule set and dataset, the report's
`overall_validity` is the AND over all configured columns (a configured
column absent from the dataset contributes `false`, a present one its checked
validity); the `column_results` of an absent column is exactly the
missing-column error entry; any absent configured column forces
`overall_validity` to `false` regardless of the other columns, with the error
recorded; a present column's validity is the AND of its rules' results in
registration order. -/
theorem validate_aggregation (reMatch : String → String → Bool)
    (timestamp : String) (v : DatasetValidator)
    (dataset : List (String × List CellVal)) :
    (validateDataset reMatch timestamp v dataset).1.overall_validity =
      v.validation_rules.all (fun p =>
        match lookupA dataset p.1 with
        | Option.none => false
        | Option.some cells => (validateColumn reMatch cells p.2).is_valid) ∧
    (validateDataset reMatch timestamp v dataset).1.column_results =
      v.validation_rules.map (fun p => (p.1,
        match lookupA dataset p.1 with
        | Option.none => ColumnEntry.missingCol "Column not found in dataset"
        | Option.some cells => ColumnEntry.checked (validateColumn reMatch cells p.2))) ∧
    (∀ column rules0, (column, rules0) ∈ v.validation_rules →
      lookupA dataset column = Option.none →
      (validateDataset reMatch timestamp v dataset).1.overall_validity = false ∧
      (column, ColumnEntry.missingCol "Column not found in dataset") ∈
        (validateDataset reMatch timestamp v dataset).1.column_results) ∧
    (∀ cells rules0,
      (validateColumn reMatch cells rules0).rule_results =
        rules0.map (fun r => applyRule reMatch cells r.ruleType r.parameters) ∧
      (validateColumn reMatch cells rules0).is_valid =
        (rules0.map (fun r => applyRule reMatch cells r.ruleType r.parameters)).all
          (fun r => r.is_valid)) := by
  have hspec := validateGo_spec reMatch dataset v.validation_rules
  have hover : (validateDataset reMatch timestamp v dataset).1.overall_validity =
      v.validation_rules.all (fun p =>
        match lookupA dataset p.1 with
        | Option.none => false
        | Option.some cells => (validateColumn reMatch cells p.2).is_valid) := hspec.2
  have hcols : (validateDataset reMatch timestamp v dataset).1.column_results =
      v.validation_rules.map (fun p => (p.1,
        match lookupA dataset p.1 with
        | Option.none => ColumnEntry.missingCol "Column not found in dataset"
        | Option.some cells => ColumnEntry.checked (validateColumn reMatch cells p.2))) :=
    hspec.1
  refine ⟨hover, hcols, ?_, fun cells rules0 => ⟨rfl, rfl⟩⟩
  intro column rules0 hmem hlook
  constructor
  · rw [hover]
    rw [Bool.eq_false_iff]
    intro hall
    rw [List.all_eq_true] at hall
    have := hall (column, rules0) hmem
    simp only [hlook] at this
    exact Bool.false_ne_true this
  · rw [hcols]
    exact List.mem_map.mpr ⟨(column, rules0), hmem, by simp [hlook]⟩

/-- C5 witness: a validator with one rule on column `"age"`, validated
against a dataset without that column: the theorem yields overall invalidity
and the recorded missing-column error. -/
theorem validate_aggregation_witness :
    (validateDataset (fun _ _ => false) "ts"
      ⟨[("age", [{ ruleType := "range_check", parameters := [] }])], []⟩
      [("name", [CellVal.str "x"])]).1.overall_validity = false ∧
    ("age", ColumnEntry.missingCol "Column not found in dataset") ∈
      (validateDataset (fun _ _ => false) "ts"
        ⟨[("age", [{ ruleType := "range_check", parameters := [] }])], []⟩
        [("name", [CellVal.str "x"])]).1.column_results :=
  (validate_aggregation (fun _ _ => false) "ts"
      ⟨[("age", [{ ruleType := "range_check", parameters := [] }])], []⟩
      [("name", [CellVal.str "x"])]).2.2.1
    "age" [{ ruleType := "range_check", parameters := [] }]
    (List.mem_cons_self _ _) rfl

theorem intCells_map_int (l : List Int) : intCells (l.map CellVal.int) = l := by
  induction l with
  | nil => rfl
  | cons n ns ih => simp [intCells, List.filterMap_cons] at ih ⊢; exact ih

theorem strCells_map_int (l : List Int) : strCells (l.map CellVal.int) = [] := by
  induction l with
  | nil => rfl
  | cons n ns ih => simp [strCells, List.filterMap_cons] at ih ⊢

theorem intCells_cons_int (n : Int) (l : List CellVal) :
    intCells (CellVal.int n :: l) = n :: intCells l := by
  simp [intCells, List.filterMap_cons]

theorem strCells_cons_int (n : Int) (l : List CellVal) :
    strCells (CellVal.int n :: l) = strCells l := by
  simp [strCells, List.filterMap_cons]

theorem colMin_int_cons (n : Int) (ns : List Int) :
    colMin (CellVal.int n :: ns.map CellVal.int) =
      Except.ok (MinOut.ival (ns.foldl min n)) := by
  unfold colMin
  rw [intCells_cons_int, strCells_cons_int, intCells_map_int, strCells_map_int]

theorem colMax_int_cons (n : Int) (ns : List Int) :
    colMax (CellVal.int n :: ns.map CellVal.int) =
      Except.ok (MinOut.ival (ns.foldl max n)) := by
  unfold colMax
  rw [intCells_cons_int, strCells_cons_int, intCells_map_int, strCells_map_int]

/-- The params dict of a range rule with optional integer bounds. -/
def rangeParams (mi ma : Option Int) : List (String × PyVal) :=
  (match mi with
   | Option.some a => [("min", PyVal.int a)]
   | Option.none => []) ++
  (match ma with
   | Option.some b => [("max", PyVal.int b)]
   | Option.none => [])

/-- C6: on a nonempty integer column, a `range_check` rule is valid iff the
column minimum is at least the given `min` bound (when given) and the column
maximum is at most the given `max` bound (when given), each bound optional
and checked independently; concretely, `[1,5,10]` validates `true` under
`{min: 1, max: 10}` and `false` under `{max: 9}`. -/
theorem range_rule_correct (reMatch : String → String → Bool)
    (n : Int) (ns : List Int) (mi ma : Option Int) :
    ((applyRule reMatch ((n :: ns).map CellVal.int) "range_check"
        (rangeParams mi ma)).is_valid =
      ((match mi with
        | Option.some a => decide (a ≤ ns.foldl min n)
        | Option.none => true) &&
       (match ma with
        | Option.some b => decide (ns.foldl max n ≤ b)
        | Option.none => true))) ∧
    (applyRule reMatch ([1, 5, 10].map CellVal.int) "range_check"
      [("min", PyVal.int 1), ("max", PyVal.int 10)]).is_valid = true ∧
    (applyRule reMatch ([1, 5, 10].map CellVal.int) "range_check"
      [("max", PyVal.int 9)]).is_valid = false := by
  refine ⟨?_, rfl, rfl⟩
  cases mi with
  | none =>
    cases ma with
    | none =>
      simp [applyRule, evalRule, rangeCheck, rangeParams, lookupA, checkMin, checkMax,
        colMin_int_cons, colMax_int_cons]
    | some b =>
      simp [applyRule, evalRule, rangeCheck, rangeParams, lookupA, checkMin, checkMax,
        colMin_int_cons, colMax_int_cons, cmpLe]
  | some a =>
    cases ma with
    | none =>
      simp [applyRule, evalRule, rangeCheck, rangeParams, lookupA, checkMin, checkMax,
        colMin_int_cons, colMax_int_cons, cmpGe]
    | some b =>
      simp [applyRule, evalRule, rangeCheck, rangeParams, lookupA, checkMin, checkMax,
        colMin_int_cons, colMax_int_cons, cmpGe, cmpLe]

theorem lookupA_append_single_of_none {α : Type} (l : List (String × α))
    (k : String) (v : α) (h : lookupA l k = none) :
    lookupA (l ++ [(k, v)]) k = some v := by
  induction l with
  | nil => simp [lookupA]
  | cons p rest ih =>
    by_cases hp : p.1 = k
    · simp [lookupA, hp] at h
    · simp only [lookupA, hp, if_false] at h
      simp [lookupA, hp, ih h]

/-- C7: any exception during rule evaluation is caught and converted into a
rule result with `is_valid = false` carrying the error message; a column's
rule evaluation always produces one result per registered rule, so the
remaining rules proceed; and `add_rule` only appends the rule to the
column's list without inspecting the parameters, leaving the history
untouched — so registration never fails on malformed parameters. -/
theorem rule_errors_never_propagate :
    (∀ (reMatch : String → String → Bool) (col : List CellVal)
       (ruleType : String) (params : List (String × PyVal)) (e : String),
       evalRule reMatch col ruleType params = Except.error e →
       applyRule reMatch col ruleType params =
         { rule_type := ruleType, is_valid := false, details := [("error", e)] }) ∧
    (∀ (reMatch : String → String → Bool) (col : List CellVal)
       (rules : List VRule),
       (validateColumn reMatch col rules).rule_results.length = rules.length) ∧
    (∀ (v : DatasetValidator) (column ruleType : String)
       (params : List (String × PyVal)),
       lookupA (addRule v column ruleType params).validation_rules column =
         some ((lookupA v.validation_rules column).getD [] ++
           [{ ruleType := ruleType, parameters := params }]) ∧
       (addRule v column ruleType params).validation_history =
         v.validation_history) := by
  refine ⟨?_, ?_, ?_⟩
  · intro reMatch col ruleType params e h
    unfold applyRule
    rw [h]
  · intro reMatch col rules
    simp [validateColumn]
  · intro v column ruleType params
    unfold addRule
    cases h : lookupA v.validation_rules column with
    | none =>
      constructor
      · simpa using lookupA_append_single_of_none v.validation_rules column _ h
      · rfl
    | some rs =>
      constructor
      · simpa using lookupA_setAssoc_self v.validation_rules column _
      · rfl

/-- C7 witness: a `type_check` rule with an empty parameters dict raises a
`KeyError` inside evaluation; the theorem turns it into a failed rule result
carrying the message. -/
theorem rule_errors_never_propagate_witness :
    applyRule (fun _ _ => false) [] "type_check" [] =
      { rule_type := "type_check", is_valid := false,
        details := [("error", "KeyError: 'expected_type'")] } :=
  rule_errors_never_propagate.1 (fun _ _ => false) [] "type_check" [] _ rfl

end DataNova
